import Mathlib

/-!
Verification of the CSV donor-data transformation pipeline
(web_app/helper.py, web_app/app.py, transform.py).

The Python source operates on pandas DataFrames.  We embed each table as a
list of records, each pandas column as a record field, and each helper
function as a Lean function over those lists.  Python exceptions that the
source does not catch are modelled with Except; pandas missing values (NaN)
are modelled with Option.  String operations from Python are re-implemented
over List Char so that all definitions compute by kernel reduction.

External collaborators are modelled as parameters:
  - the email_validator library is a parameter valid : String -> Bool
    (validate_email succeeds iff valid e = true; validate_email applied to a
    missing value raises AttributeError, modelled separately);
  - the tag-mapping HTTP endpoint is a TagApiResponse value holding the
    status code and the decoded JSON body.
-/

/-! ## Character-level string utilities (Python semantics) -/

/-- Python s.split(sep) for a one-character separator: keeps empty pieces. -/
def splitChar (sep : Char) : List Char → List (List Char)
  | [] => [[]]
  | c :: rest =>
    if c = sep then [] :: splitChar sep rest
    else
      match splitChar sep rest with
      | [] => [[c]]
      | h :: t => (c :: h) :: t

/-- Python s.split() (no argument): split on whitespace runs, dropping empties. -/
def pySplitWs (l : List Char) : List (List Char) :=
  (l.foldr
    (fun c acc =>
      match acc with
      | [] => if c.isWhitespace then [[]] else [[c]]
      | h :: t => if c.isWhitespace then [] :: h :: t else (c :: h) :: t)
    [[]]).filter (fun p => p ≠ [])

/-- Python s.split(", ") for the fixed two-character separator used by the code. -/
def splitCommaSpace : List Char → List (List Char)
  | [] => [[]]
  | [c] => [[c]]
  | c1 :: c2 :: rest =>
    if c1 = ',' ∧ c2 = ' ' then [] :: splitCommaSpace rest
    else
      match splitCommaSpace (c2 :: rest) with
      | [] => [[c1]]
      | h :: t => (c1 :: h) :: t

/-- Python s.strip(): drop whitespace from both ends. -/
def pyStrip (l : List Char) : List Char :=
  ((l.dropWhile Char.isWhitespace).reverse.dropWhile Char.isWhitespace).reverse

/-- Python s.strip(cs): drop any character of cs from both ends. -/
def pyStripChars (cs : List Char) (l : List Char) : List Char :=
  ((l.dropWhile (cs.contains ·)).reverse.dropWhile (cs.contains ·)).reverse

/-- Python str.strip() lifted to String. -/
def pyStripStr (s : String) : String := String.mk (pyStrip s.toList)

/-- Python str.lower (ASCII, as used on the Company column). -/
def pyLower (s : String) : String := String.mk (s.toList.map Char.toLower)

/-- Lexicographic comparison of character lists, the order Python uses to
compare strings (and hence the order pandas idxmax uses on an object column
of date strings). -/
def chLt : List Char → List Char → Bool
  | [], [] => false
  | [], _ :: _ => true
  | _ :: _, [] => false
  | a :: as, b :: bs => if a < b then true else if b < a then false else chLt as bs

/-- Naive substring test over character lists. -/
def containsSub : List Char → List Char → Bool
  | [], needle => needle.isEmpty
  | h :: t, needle => needle.isPrefixOf (h :: t) || containsSub t needle

/-- Join a list of strings with a separator, Python sep.join. -/
def joinWith (sep : String) : List String → String
  | [] => ""
  | [x] => x
  | x :: y :: t => x ++ sep ++ joinWith sep (y :: t)

/-- Digit character for a value below ten. -/
def digitChar (n : Nat) : Char := Char.ofNat (48 + n)

/-- Decimal digits of n, least significant first; the first argument is fuel
(n + 1 always suffices since the value shrinks by a factor of ten). -/
def natToRevDigitsAux : Nat → Nat → List Char
  | 0, _ => []
  | _ + 1, 0 => []
  | fuel + 1, n => digitChar (n % 10) :: natToRevDigitsAux fuel (n / 10)

/-- Decimal string of a natural number. -/
def natToString (n : Nat) : String :=
  if n = 0 then "0" else String.mk (natToRevDigitsAux (n + 1) n).reverse

/-- Insert a comma before every third digit (input and output both least
significant first), giving Python {:,} thousands grouping after reversal. -/
def commaGroupRev : List Char → Nat → List Char
  | [], _ => []
  | c :: rest, n =>
    if n ≠ 0 ∧ n % 3 = 0 then ',' :: c :: commaGroupRev rest (n + 1)
    else c :: commaGroupRev rest (n + 1)

/-- Decimal string of a natural number with thousands separators. -/
def fmtNatGrouped (n : Nat) : String :=
  if n = 0 then "0"
  else String.mk ((commaGroupRev (natToRevDigitsAux (n + 1) n) 0).reverse)

/-- Two-digit zero-padded rendering of a value below one hundred. -/
def pad2n (n : Nat) : String :=
  if n < 10 then "0" ++ natToString n else natToString n

/-- Four-digit zero-padded rendering, strftime %Y. -/
def pad4n (n : Nat) : String :=
  if n < 10 then "000" ++ natToString n
  else if n < 100 then "00" ++ natToString n
  else if n < 1000 then "0" ++ natToString n
  else natToString n

/-- Addition of rationals written out on numerator and denominator (the
library addition is opaque to kernel reduction; this normalized form is the
same value and computes). -/
def qAdd (a b : ℚ) : ℚ :=
  mkRat (a.num * (b.den : Int) + b.num * (a.den : Int)) (a.den * b.den)

/-- Sum of a list of rationals, the pandas groupby sum. -/
def qSum (l : List ℚ) : ℚ := l.foldl qAdd 0

/-- The value in whole cents of a rational number of dollars, rounded
half-up: floor(q * 100 + 1/2) computed as (200 num + den) fdiv (2 den). -/
def centsOf (q : ℚ) : Int :=
  (200 * q.num + (q.den : Int)).fdiv (2 * (q.den : Int))

/-- Python format(x, "$\x7b:,.2f\x7d") as used on donation amounts: dollar sign,
sign of the value, thousands-grouped dollars, and two cent digits.  We model
the rounding of the two-decimal rendering as round-half-up on the exact
rational value; Python rounds the binary double half-even, which agrees on
every non-tie value. -/
def fmtCurrency (q : ℚ) : String :=
  let a : Nat := (centsOf q).natAbs
  let sign : String := if q.num < 0 then "-" else ""
  "$" ++ sign ++ fmtNatGrouped (a / 100) ++ "." ++ pad2n (a % 100)

/-- All characters are decimal digits and the list is nonempty. -/
def chAllDigits (l : List Char) : Bool := !l.isEmpty && l.all Char.isDigit

/-- Value of a digit list, most significant first. -/
def chToNat (l : List Char) : Nat :=
  l.foldl (fun acc c => acc * 10 + (c.toNat - 48)) 0

/-- Parse a nonempty all-digit list. -/
def parseNatCh (l : List Char) : Option Nat :=
  if chAllDigits l then some (chToNat l) else none

/-- Python float(s) restricted to the plain decimal forms that appear in
currency fields: optional surrounding whitespace, optional sign, digits with
an optional decimal point (at least one digit overall).  Exponent, inf, nan
and underscore forms of the Python float grammar are not modelled; on those
this parser fails where Python would succeed, which only makes the modelled
validation stricter and is not relied on by any claim. -/
def pyFloat (s0 : String) : Option ℚ :=
  let l := pyStrip s0.toList
  let (neg, body) : Bool × List Char :=
    match l with
    | '-' :: r => (true, r)
    | '+' :: r => (false, r)
    | r => (false, r)
  match splitChar '.' body with
  | [a] =>
    (parseNatCh a).map (fun v =>
      mkRat (if neg then -(v : Int) else (v : Int)) 1)
  | [a, b] =>
    if a.all Char.isDigit ∧ b.all Char.isDigit ∧ (a ≠ [] ∨ b ≠ []) then
      let n : Int := ((chToNat a * 10 ^ b.length + chToNat b : Nat) : Int)
      some (mkRat (if neg then -n else n) (10 ^ b.length))
    else none
  | _ => none

/-- The amount transformation in validate_data and transform.py:
s.replace("$", "").replace(",", "") followed by float(s). -/
def parseCurrency (s : String) : Option ℚ :=
  pyFloat (String.mk (s.toList.filter (fun c => c ≠ '$' ∧ c ≠ ',')))

/-! ## Dates -/

/-- A parsed timestamp (pandas Timestamp). -/
structure DateTime where
  year : Nat
  month : Nat
  day : Nat
  hour : Nat
  minute : Nat
  second : Nat
deriving DecidableEq, Repr

def isLeap (y : Nat) : Bool :=
  (y % 4 = 0 && y % 100 ≠ 0) || y % 400 = 0

def daysInMonth (y m : Nat) : Nat :=
  if m = 2 then (if isLeap y then 29 else 28)
  else if [4, 6, 9, 11].contains m then 30
  else 31

/-- Parse "Y-M-D" with calendar range checks. -/
def parseISODate (l : List Char) : Option (Nat × Nat × Nat) :=
  match splitChar '-' l with
  | [ys, ms, ds] =>
    match parseNatCh ys, parseNatCh ms, parseNatCh ds with
    | some y, some m, some d =>
      if 1 ≤ m ∧ m ≤ 12 ∧ 1 ≤ d ∧ d ≤ daysInMonth y m then some (y, m, d) else none
    | _, _, _ => none
  | _ => none

/-- Parse "H:M" or "H:M:S" with range checks. -/
def parseTimeCh (l : List Char) : Option (Nat × Nat × Nat) :=
  match splitChar ':' l with
  | [hs, ms] =>
    match parseNatCh hs, parseNatCh ms with
    | some h, some m => if h ≤ 23 ∧ m ≤ 59 then some (h, m, 0) else none
    | _, _ => none
  | [hs, ms, ss] =>
    match parseNatCh hs, parseNatCh ms, parseNatCh ss with
    | some h, some m, some s =>
      if h ≤ 23 ∧ m ≤ 59 ∧ s ≤ 59 then some (h, m, s) else none
    | _, _, _ => none
  | _ => none

/-- pandas.to_datetime(s, errors="coerce") restricted to the ISO-style forms
"Y-M-D", "Y-M-D H:M" and "Y-M-D H:M:S".  The real parser accepts further
locale formats; strings outside the modelled grammar coerce to none, which is
also what the real parser does to unparseable strings.  No verified claim
depends on which additional formats parse. -/
def pd_to_datetime_ch (l : List Char) : Option DateTime :=
  match pySplitWs l with
  | [d] => (parseISODate d).map (fun x => ⟨x.1, x.2.1, x.2.2, 0, 0, 0⟩)
  | [d, t] =>
    match parseISODate d, parseTimeCh t with
    | some x, some u => some ⟨x.1, x.2.1, x.2.2, u.1, u.2.1, u.2.2⟩
    | _, _ => none
  | _ => none

/-- Python h.zfill(2). -/
def zfill2ch (l : List Char) : List Char :=
  match l with
  | [] => ['0', '0']
  | [c] => if c = '+' ∨ c = '-' then [c, '0'] else ['0', c]
  | _ => l

/-- Timestamp.strftime("%Y-%m-%d %H:%M:%S"). -/
def fmtDateTime (dt : DateTime) : String :=
  pad4n dt.year ++ "-" ++ pad2n dt.month ++ "-" ++ pad2n dt.day ++ " " ++
    pad2n dt.hour ++ ":" ++ pad2n dt.minute ++ ":" ++ pad2n dt.second

/-- helper.py normalize_dates.  A missing value returns NaN (ok none).  If a
colon is present the code unpacks date.split() into exactly two chunks and
the time chunk into exactly two colon-separated parts; any other shape raises
an uncaught ValueError, modelled as Except.error.  The reassembled (or
original) string then goes through pandas.to_datetime with errors="coerce",
which never raises and yields none on failure (the source logs that case). -/
def normalize_dates (date : Option String) : Except String (Option DateTime) :=
  match date with
  | none => .ok none
  | some s =>
    let l := s.toList
    if l.contains ':' then
      match pySplitWs l with
      | [d, t] =>
        match splitChar ':' t with
        | [h, m] => .ok (pd_to_datetime_ch (d ++ [' '] ++ zfill2ch h ++ [':'] ++ m))
        | _ => .error "ValueError: cannot unpack time component"
      | _ => .error "ValueError: cannot unpack date and time"
    else .ok (pd_to_datetime_ch l)

/-! ## Data model -/

/-- One row of the constituents input CSV. -/
structure CRow where
  patronId : String
  firstName : Option String
  lastName : Option String
  dateEntered : Option String
  primaryEmail : Option String
  company : Option String
  salutation : Option String
  title : Option String
  tags : Option String
  gender : Option String
deriving DecidableEq, Repr

/-- One row of the emails input CSV. -/
structure ERow where
  patronId : String
  email : Option String
deriving DecidableEq, Repr

/-- A donation amount cell: either still the raw currency string from the
CSV, or the numeric value validate_data converted it to. -/
inductive Amt where
  | str (s : String)
  | num (q : ℚ)
deriving DecidableEq, Repr

/-- One row of the donation-history input CSV, amount still a raw string. -/
structure DRawRow where
  patronId : String
  amount : String
  date : String
  payment : String
  campaign : String
  status : String
deriving DecidableEq, Repr

/-- One row of the donation-history table as held in memory, where the
amount cell may or may not have been converted by validate_data. -/
structure DRow where
  patronId : String
  amount : Amt
  date : String
  payment : String
  campaign : String
  status : String
deriving DecidableEq, Repr

/-- A donation-history row as it leaves pd.read_csv, before validate_data
touches it: amount is the raw currency string. -/
def injectRaw (r : DRawRow) : DRow :=
  ⟨r.patronId, Amt.str r.amount, r.date, r.payment, r.campaign, r.status⟩

/-- The same row after the conversion validate_data performs. -/
def parseWith (r : DRawRow) : DRow :=
  ⟨r.patronId, Amt.num ((parseCurrency r.amount).getD 0), r.date, r.payment,
    r.campaign, r.status⟩

/-- One row of the output constituents table. -/
structure OutRow where
  patron_id : String
  type : String
  first_name : Option String
  last_name : Option String
  company : Option String
  created_at : Option String
  email1 : Option String
  email2 : Option String
  title : Option String
  tags : Option String
  background_info : String
  lifetime_donations : Option String
  most_recent_donation_amount : Option String
  most_recent_donation_date : Option String
deriving DecidableEq, Repr

/-- One row of the output tag-count table. -/
structure TagCountRow where
  tag_name : String
  tag_count : Nat
deriving DecidableEq, Repr

/-- The decoded response of the tag-mapping HTTP endpoint: the status code
and, for each element of the JSON array, its name and mapped_name fields. -/
structure TagApiResponse where
  status_code : Nat
  tags : List (String × String)
deriving DecidableEq, Repr

/-- Is an Except value an error (a Python exception propagating)? -/
def isErr {ε α : Type} : Except ε α → Bool
  | .error _ => true
  | .ok _ => false

/-! ## Tag mapping -/

/-- Lookup in a Python dict built from an association list by comprehension:
a later binding of the same key overwrites an earlier one, so we search the
reversed list. -/
def dictGet (m : List (String × String)) (k : String) : Option String :=
  (m.reverse.find? (fun p => p.1 == k)).map (fun p => p.2)

/-- helper.py get_mapped_tags, given the decoded response: on status 200
build the dict of stripped name/mapped_name pairs, otherwise log and return
the empty dict.  (A transport failure of requests.get itself is outside this
model, which assumes a response arrived.) -/
def get_mapped_tags (resp : TagApiResponse) : List (String × String) :=
  if resp.status_code = 200 then
    resp.tags.map (fun p => (pyStripStr p.1, pyStripStr p.2))
  else []

/-- transform.py get_mapped_tags: identical on status 200, but on any other
status the script prints and calls exit(1), modelled as an error. -/
def transform_get_mapped_tags (resp : TagApiResponse) :
    Except Unit (List (String × String)) :=
  if resp.status_code = 200 then
    .ok (resp.tags.map (fun p => (pyStripStr p.1, pyStripStr p.2)))
  else .error ()

/-- Deduplication keeping the first occurrence.  The Python source builds a
set, whose iteration order is unspecified; we fix first-occurrence order.
No verified claim depends on the order of the deduplicated tags. -/
def dedupAux (seen : List String) : List String → List String
  | [] => []
  | x :: xs =>
    if seen.contains x then dedupAux seen xs
    else x :: dedupAux (x :: seen) xs

def dedupFirst (l : List String) : List String := dedupAux [] l

/-- helper.py map_tags: a missing tags cell stays missing; otherwise split on
commas, strip each piece, map it through the dict falling back to the
stripped piece, deduplicate, and rejoin with ", ". -/
def map_tags (tags : Option String) (mapping : List (String × String)) :
    Option String :=
  match tags with
  | none => none
  | some s =>
    let pieces := (splitChar ',' s.toList).map (fun t => String.mk (pyStrip t))
    let mapped := pieces.map (fun t => (dictGet mapping t).getD t)
    some (joinWith ", " (dedupFirst mapped))

/-! ## Classifier -/

/-- The stoplist literal from helper.py line 159.  The Python source writes
the list as two adjacent string literals followed by a comma, so implicit
literal concatenation produces the single element "n/anone" instead of the
two words "n/a" and "none" that the adjoining comment describes. -/
def non_company_words : List String := ["n/anone", "used to work here"]

/-- The np.select cascade of helper.py lines 160-163: Person if both name
parts are present, else Company if the company cell is present and its
lowercase form is not a stoplist word, else Unknown. -/
def constituentType (r : CRow) : String :=
  if r.firstName.isSome && r.lastName.isSome then "Person"
  else if (match r.company with
           | some co => !(non_company_words.contains (pyLower co))
           | none => false) then "Company"
  else "Unknown"

/-- helper.py lines 181-184: background_info concatenates the optional job
title and marital-status fragments with "; " and strips ";" and " " from
both ends. -/
def background_info (r : CRow) : String :=
  let jt := match r.title with
    | some t => "Job Title: " ++ t
    | none => ""
  let ms := match r.gender with
    | some g => if g ≠ "Unknown" then "Marital Status: " ++ g else ""
    | none => ""
  String.mk (pyStripChars [';', ' '] (jt ++ "; " ++ ms).toList)

/-! ## Emails -/

/-- The spec-level set of validated email records: the (patron, address)
pairs of the emails table whose address is present and validates. -/
def validPairs (valid : String → Bool) (emails : List ERow) :
    List (String × String) :=
  emails.filterMap (fun r =>
    match r.email with
    | some e => if valid e then some (r.patronId, e) else none
    | none => none)

/-- The email-filtering loop of gen_constituents (helper.py lines 139-147):
validate_email is tried on every cell; an EmailNotValidError drops the row
(logged), but a missing cell (NaN) makes validate_email raise an uncaught
AttributeError, modelled as an error. -/
def filterValidEmails (valid : String → Bool) :
    List ERow → Except String (List (String × String))
  | [] => .ok []
  | r :: rs =>
    match r.email with
    | none => .error "AttributeError: validate_email on a missing cell"
    | some e =>
      match filterValidEmails valid rs with
      | .error msg => .error msg
      | .ok rest => .ok (if valid e then (r.patronId, e) :: rest else rest)

/-- First validated email on file for a patron:
emails_df.groupby("Patron ID").first() followed by .loc, which returns the
first row of the group (input order) or signals absence. -/
def lookupFirst (ve : List (String × String)) (pid : String) : Option String :=
  (ve.find? (fun p => p.1 == pid)).map (fun p => p.2)

/-- helper.py replace_invalid_email: keep a validating primary, otherwise
(invalid address, or AttributeError on a missing cell) fall back to the
first validated email of the patron, or NaN when the patron has none. -/
def replace_invalid_email (valid : String → Bool) (ve : List (String × String))
    (pid : String) (primary : Option String) : Option String :=
  match primary with
  | some e => if valid e then some e else lookupFirst ve pid
  | none => lookupFirst ve pid

/-- The pandas inequality test of helper.py line 173: a string cell compared
with a possibly-missing email1 cell; NaN compares unequal to everything. -/
def neqOpt (a : String) (b : Option String) : Bool :=
  match b with
  | some x => a != x
  | none => true

/-- The email1 cell the apply step of helper.py line 170 writes into a
constituent row. -/
def email1For (valid : String → Bool) (ve : List (String × String))
    (r : CRow) : Option String :=
  replace_invalid_email valid ve r.patronId r.primaryEmail

/-- The surviving merge pairs one constituent row contributes to temp_df
(helper.py lines 172-173): the validated emails of its patron, minus those
equal to the email1 chosen for this row.  (Left-join rows with no matching
email carry a missing Email cell; they survive the inequality filter but
are skipped by the later groupby first, so they contribute nothing here.) -/
def rowPairs (valid : String → Bool) (ve : List (String × String))
    (r : CRow) : List (String × String) :=
  (ve.filter (fun p => p.1 == r.patronId)).filter
    (fun p => neqOpt p.2 (email1For valid ve r))

/-- All surviving pairs of temp_df in its order: constituent-row major
(left-merge keeps left order), email order within each row. -/
def survivingPairs (valid : String → Bool) (ve : List (String × String))
    (c : List CRow) : List (String × String) :=
  c.flatMap (rowPairs valid ve)

/-- The email2 computation of helper.py lines 172-176 is per PATRON, not
per row: temp_df.groupby("Patron ID")["Email"].first() scans the merged
pairs of every constituent row carrying that patron id, so when a patron id
is duplicated in the constituents table all its rows share one email2,
taken from the pairs of the first row of the patron. -/
def secondaryEmailTable (valid : String → Bool) (ve : List (String × String))
    (c : List CRow) (pid : String) : Option String :=
  ((survivingPairs valid ve c).find? (fun p => p.1 == pid)).map (fun p => p.2)

/-! ## Donations -/

/-- Numeric view of an amount cell. -/
def amtVal : Amt → Option ℚ
  | .num q => some q
  | .str _ => none

/-- One step of the idxmax scan: keep the row with the strictly larger date,
so ties keep the first-seen row. -/
def maxDateStep (acc : Option DRow) (r : DRow) : Option DRow :=
  match acc with
  | none => some r
  | some b => if chLt b.date.toList r.date.toList then some r else some b

/-- groupby("Patron ID")["Donation Date"].idxmax() within one group: the
first row carrying the maximal date string. -/
def argmaxDate (rows : List DRow) : Option DRow := rows.foldl maxDateStep none

/-- The paid donations of one patron, in input order. -/
def paidRowsFor (dhist : List DRow) (pid : String) : List DRow :=
  (dhist.filter (fun r => r.status == "Paid")).filter
    (fun r => r.patronId == pid)

/-- Lifetime and most-recent donation details of one patron, as produced by
the groupby sum, the idxmax row selection, and their merge (helper.py lines
150-154): none when the patron has no paid donation. -/
structure DDetail where
  lifetime : ℚ
  mrAmount : ℚ
  mrDate : String
deriving DecidableEq, Repr

/-- The donation-details lookup keyed by patron, modelling the merged
lt_donations / most_recent_donations frame.  Both sides of that merge carry
exactly the patrons owning at least one paid row, and each carries one row
per patron, so the left-merge onto the constituents table behaves as this
per-patron lookup. -/
def ddFun (paid : List DRow) (pid : String) : Option DDetail :=
  let rows := paid.filter (fun r => r.patronId == pid)
  match argmaxDate rows with
  | none => none
  | some mr =>
    some ⟨qSum (rows.map (fun r => (amtVal r.amount).getD 0)),
          (amtVal mr.amount).getD 0, mr.date⟩

/-- The donation aggregation of helper.py lines 150-156.  When some paid
amount cell is still a raw string, the pandas sum and the "$\x7b:,.2f\x7d"
format raise (TypeError on a mixed column, ValueError when formatting a
string), aborting gen_constituents; this is the situation validate_data
prevents by converting the column first. -/
def donationDetails (paid : List DRow) :
    Except String (String → Option DDetail) :=
  if paid.all (fun r => (amtVal r.amount).isSome) then .ok (ddFun paid)
  else .error "TypeError: cannot aggregate unconverted donation amounts"

/-! ## Validation -/

def exp_c_columns : List String :=
  ["Patron ID", "First Name", "Last Name", "Date Entered", "Primary Email",
   "Company", "Salutation", "Title", "Tags", "Gender"]

def exp_e_columns : List String := ["Patron ID", "Email"]

def exp_d_columns : List String :=
  ["Patron ID", "Donation Amount", "Donation Date", "Payment Method",
   "Campaign", "Status"]

/-- Order-independent set equality of column lists, Python
set(a) == set(b). -/
def sameColumnSet (a b : List String) : Bool :=
  a.all (b.contains ·) && b.all (a.contains ·)

/-- Parse every amount cell; all-or-nothing like Series.astype(float). -/
def parseAllAmounts : List DRawRow → Option (List DRow)
  | [] => some []
  | r :: rs =>
    match parseCurrency r.amount with
    | none => none
    | some _ =>
      match parseAllAmounts rs with
      | none => none
      | some rest => some (parseWith r :: rest)

/-- helper.py validate_data.  The three column sets are checked first, in
order, each mismatch returning the fixed message; then the donation-amount
column is converted to numbers, a parse failure returning the format
message.  The in-place column mutation is modelled by returning the updated
donation table, which the caller (app.py get_outputs) then passes to
gen_constituents; on any failure the table is returned as read, still
holding raw strings.  The patron-uniqueness and positivity checks only log
and do not affect the result, so they are not modelled. -/
def validate_data (cCols eCols dCols : List String) (draw : List DRawRow) :
    Bool × String × List DRow :=
  if !sameColumnSet cCols exp_c_columns then
    (false, "Ensure that columns adhere to the samples", draw.map injectRaw)
  else if !sameColumnSet eCols exp_e_columns then
    (false, "Ensure that columns adhere to the samples", draw.map injectRaw)
  else if !sameColumnSet dCols exp_d_columns then
    (false, "Ensure that columns adhere to the samples", draw.map injectRaw)
  else
    match parseAllAmounts draw with
    | some parsed => (true, "", parsed)
    | none => (false, "Invalid donation amount format detected",
               draw.map injectRaw)

/-! ## Assembler -/

/-- Error-propagating map, modelling DataFrame.apply of a function that can
raise: the first raising row aborts the whole call. -/
def mapE {α β : Type} (f : α → Except String β) :
    List α → Except String (List β)
  | [] => .ok []
  | a :: as =>
    match f a with
    | .error e => .error e
    | .ok b =>
      match mapE f as with
      | .error e => .error e
      | .ok bs => .ok (b :: bs)

/-- The per-row part of gen_constituents: classifier, date normalization
plus strftime, email selection, tag mapping, background derivation, and the
left-merged donation details and secondary email (both joins have a unique
key on their right side, so they act as per-row lookups on the precomputed
tables dd and e2t).  Within a row only the date normalization can raise;
the column-level strftime failure is modelled in gen_constituents. -/
def assembleRow (valid : String → Bool) (mapping : List (String × String))
    (ve : List (String × String)) (dd : String → Option DDetail)
    (e2t : String → Option String) (r : CRow) : Except String OutRow :=
  match normalize_dates r.dateEntered with
  | .error e => .error e
  | .ok created =>
    let e1 := email1For valid ve r
    let d := dd r.patronId
    .ok
      { patron_id := r.patronId
        type := constituentType r
        first_name := r.firstName
        last_name := r.lastName
        company := r.company
        created_at := created.map fmtDateTime
        email1 := e1
        email2 := e2t r.patronId
        title := r.salutation
        tags := map_tags r.tags mapping
        background_info := background_info r
        lifetime_donations := d.map (fun x => fmtCurrency x.lifetime)
        most_recent_donation_amount := d.map (fun x => fmtCurrency x.mrAmount)
        most_recent_donation_date := d.map (fun x => x.mrDate) }

/-- helper.py gen_constituents: fetch the tag mapping, filter the emails
table to validated addresses (a missing cell raises), aggregate the paid
donations (an unconverted amount raises), then build every output row; the
per-row date normalization can raise ValueError (helper.py line 166).
After the apply completes, line 167 reads the column through the .dt
accessor, which requires a datetimelike column: each present cell became a
Timestamp or NaT, each missing cell a plain float NaN, so the converted
column is datetime-typed exactly when some Date Entered cell was present.
When every cell is missing (or the table is empty) the column stays a
non-datetimelike all-NaN column and .dt.strftime raises an uncaught
AttributeError, modelled by the final check. -/
def gen_constituents (valid : String → Bool) (resp : TagApiResponse)
    (c : List CRow) (emails : List ERow) (dhist : List DRow) :
    Except String (List OutRow) :=
  match filterValidEmails valid emails with
  | .error e => .error e
  | .ok ve =>
    match donationDetails (dhist.filter (fun r => r.status == "Paid")) with
    | .error e => .error e
    | .ok dd =>
      match mapE (assembleRow valid (get_mapped_tags resp) ve dd
          (secondaryEmailTable valid ve c)) c with
      | .error e => .error e
      | .ok out =>
        if c.all (fun r => r.dateEntered.isNone) then
          .error "AttributeError: .dt accessor on a non-datetimelike column"
        else .ok out

/-- Stable insertion keeping strictly larger counts in front, so equal
counts stay in first-occurrence order. -/
def insertByCount (x : TagCountRow) : List TagCountRow → List TagCountRow
  | [] => [x]
  | y :: ys =>
    if x.tag_count > y.tag_count then x :: y :: ys else y :: insertByCount x ys

def sortByCountDesc : List TagCountRow → List TagCountRow
  | [] => []
  | x :: xs => insertByCount x (sortByCountDesc xs)

/-- helper.py gen_tag_counts: split each present tags cell on ", ", explode,
and count occurrences of each distinct tag, ordered by descending count.
Rows with a missing tags cell contribute nothing (value_counts drops NaN).
pandas sorts counts with an unstable sort; we fix the deterministic
first-occurrence order for ties. -/
def gen_tag_counts (rows : List OutRow) : List TagCountRow :=
  let allTags : List String :=
    (rows.filterMap (fun r => r.tags)).flatMap
      (fun s => (splitCommaSpace s.toList).map String.mk)
  sortByCountDesc
    ((dedupFirst allTags).map (fun t => ⟨t, allTags.count t⟩))

/-- app.py get_outputs, after the three pd.read_csv calls: validate (the
donation table coming back possibly converted), short-circuit to the error
response on failure, otherwise run the transformation and package the two
output tables (CSV serialization and zip packaging elided). -/
def get_outputs (valid : String → Bool) (resp : TagApiResponse)
    (cCols eCols dCols : List String) (c : List CRow) (emails : List ERow)
    (draw : List DRawRow) :
    Except String (List OutRow × List TagCountRow) :=
  match validate_data cCols eCols dCols draw with
  | (true, _, dhist) =>
    match gen_constituents valid resp c emails dhist with
    | .error e => .error e
    | .ok out => .ok (out, gen_tag_counts out)
  | (false, msg, _) => .error ("Error detected: " ++ msg)

/-! ## Concrete inputs used by counterexamples and witnesses -/

/-- A record with a missing first name whose company cell holds "None". -/
def c1_row : CRow :=
  { patronId := "10", firstName := none, lastName := some "Doe",
    dateEntered := none, primaryEmail := none, company := some "None",
    salutation := none, title := none, tags := none, gender := none }

/-- A record whose Date Entered cell holds a bare time "12:30": its split on
whitespace yields a single chunk, which the tuple unpacking in
normalize_dates cannot destructure. -/
def cx7_row : CRow :=
  { patronId := "1", firstName := none, lastName := none,
    dateEntered := some "12:30", primaryEmail := none, company := none,
    salutation := none, title := none, tags := none, gender := none }

/-- The constituents header with the Gender column missing. -/
def c_cols_missing_gender : List String :=
  ["Patron ID", "First Name", "Last Name", "Date Entered", "Primary Email",
   "Company", "Salutation", "Title", "Tags"]

/-- A membership test standing in for the email_validator collaborator. -/
def wValid : String → Bool := fun e => e == "ok@x.com" || e == "ok2@x.com"

/-- A failed tag-endpoint response. -/
def wResp : TagApiResponse := ⟨404, []⟩

/-- One constituent whose declared primary email does not validate.  The
Date Entered cell is present and parseable, so the real pipeline completes
on this input (with no present date the .dt.strftime step would raise). -/
def wC : List CRow :=
  [{ patronId := "1", firstName := some "A", lastName := some "B",
     dateEntered := some "2024-03-04", primaryEmail := some "bad@",
     company := none, salutation := none, title := none, tags := none,
     gender := none }]

/-- Two backup emails for that patron, both validating, in input order. -/
def wEmails : List ERow := [⟨"1", some "ok@x.com"⟩, ⟨"1", some "ok2@x.com"⟩]

/-- Donation history: two paid donations and a pending one for patron 1, and
a paid donation of another patron. -/
def wDhist : List DRow :=
  [⟨"1", Amt.num 10, "2024-01-01", "Card", "Camp", "Paid"⟩,
   ⟨"1", Amt.num (mkRat 725 100), "2024-03-05", "Card", "Camp", "Paid"⟩,
   ⟨"1", Amt.num 99, "2024-04-01", "Card", "Camp", "Pending"⟩,
   ⟨"2", Amt.num 5, "2024-01-01", "Card", "Camp", "Paid"⟩]

/-- The output row the pipeline produces on the inputs above. -/
def wOut : List OutRow :=
  [{ patron_id := "1", type := "Person", first_name := some "A",
     last_name := some "B", company := none,
     created_at := some "2024-03-04 00:00:00",
     email1 := some "ok@x.com", email2 := some "ok2@x.com", title := none,
     tags := none, background_info := "",
     lifetime_donations := some "$17.25",
     most_recent_donation_amount := some "$7.25",
     most_recent_donation_date := some "2024-03-05" }]

/-- Two constituent rows sharing patron id "1": the first row declares the
validating primary ok2@x.com, the second the invalid primary "bad@". -/
def dupC : List CRow :=
  [{ patronId := "1", firstName := some "A", lastName := some "B",
     dateEntered := some "2024-03-04", primaryEmail := some "ok2@x.com",
     company := none, salutation := none, title := none, tags := none,
     gender := none },
   { patronId := "1", firstName := some "C", lastName := some "D",
     dateEntered := some "2024-03-04", primaryEmail := some "bad@",
     company := none, salutation := none, title := none, tags := none,
     gender := none }]

/-- The output the pipeline produces on dupC with the wEmails table: the
per-patron groupby makes both rows share email2 = ok@x.com, which for the
second row equals its own substituted email1. -/
def dupOut : List OutRow :=
  [{ patron_id := "1", type := "Person", first_name := some "A",
     last_name := some "B", company := none,
     created_at := some "2024-03-04 00:00:00",
     email1 := some "ok2@x.com", email2 := some "ok@x.com", title := none,
     tags := none, background_info := "", lifetime_donations := none,
     most_recent_donation_amount := none,
     most_recent_donation_date := none },
   { patron_id := "1", type := "Person", first_name := some "C",
     last_name := some "D", company := none,
     created_at := some "2024-03-04 00:00:00",
     email1 := some "ok@x.com", email2 := some "ok@x.com", title := none,
     tags := none, background_info := "", lifetime_donations := none,
     most_recent_donation_amount := none,
     most_recent_donation_date := none }]

/-- A raw donation-history table as read from CSV. -/
def wDraw : List DRawRow :=
  [⟨"1", "$10.00", "2024-01-01", "Card", "Camp", "Paid"⟩]

/-- The same table if it were handed to gen_constituents without having been
converted by validate_data: the paid amount is still a currency string. -/
def wBadDh : List DRow :=
  [⟨"1", Amt.str "$10.00", "2024-01-01", "Card", "Camp", "Paid"⟩]

/-! ## Structural lemmas about the embedding -/

theorem mapE_ok_length {α β : Type} {f : α → Except String β} :
    ∀ {l : List α} {out : List β}, mapE f l = .ok out → out.length = l.length := by
  intro l
  induction l with
  | nil =>
    intro out h
    simp only [mapE] at h
    cases h
    rfl
  | cons a as ih =>
    intro out h
    simp only [mapE] at h
    cases hfa : f a with
    | error e => rw [hfa] at h; exact absurd h (by simp)
    | ok b =>
      rw [hfa] at h
      cases hrest : mapE f as with
      | error e => rw [hrest] at h; exact absurd h (by simp)
      | ok bs =>
        rw [hrest] at h
        cases h
        simp [ih hrest]

theorem mapE_ok_get {α β : Type} {f : α → Except String β} :
    ∀ {l : List α} {out : List β}, mapE f l = .ok out →
      ∀ (i : Nat) (hi : i < l.length) (hi' : i < out.length),
        f (l.get ⟨i, hi⟩) = .ok (out.get ⟨i, hi'⟩) := by
  intro l
  induction l with
  | nil =>
    intro out h i hi
    exact absurd hi (by simp)
  | cons a as ih =>
    intro out h i hi hi'
    simp only [mapE] at h
    cases hfa : f a with
    | error e => rw [hfa] at h; exact absurd h (by simp)
    | ok b =>
      rw [hfa] at h
      cases hrest : mapE f as with
      | error e => rw [hrest] at h; exact absurd h (by simp)
      | ok bs =>
        rw [hrest] at h
        cases h
        cases i with
        | zero => simpa using hfa
        | succ n =>
          exact ih hrest n (Nat.lt_of_succ_lt_succ hi) (Nat.lt_of_succ_lt_succ hi')

theorem filterValidEmails_ok {valid : String → Bool} :
    ∀ {emails : List ERow} {ve : List (String × String)},
      filterValidEmails valid emails = .ok ve → ve = validPairs valid emails := by
  intro emails
  induction emails with
  | nil =>
    intro ve h
    simp only [filterValidEmails] at h
    cases h
    rfl
  | cons r rs ih =>
    intro ve h
    simp only [filterValidEmails] at h
    cases hre : r.email with
    | none => rw [hre] at h; exact absurd h (by simp)
    | some e =>
      rw [hre] at h
      cases hrest : filterValidEmails valid rs with
      | error m => rw [hrest] at h; exact absurd h (by simp)
      | ok rest =>
        rw [hrest] at h
        cases h
        have hr := ih hrest
        subst hr
        by_cases hv : valid e <;> simp [validPairs, List.filterMap_cons, hre, hv]

theorem find?_eq_filter_head? {α : Type} (p : α → Bool) :
    ∀ l : List α, l.find? p = (l.filter p).head? := by
  intro l
  induction l with
  | nil => rfl
  | cons a t ih =>
    simp only [List.find?, List.filter]
    cases h : p a with
    | true => simp only [h, List.head?]
    | false => simp only [h]; exact ih

theorem foldl_maxDateStep_isSome :
    ∀ (l : List DRow) (b : DRow), (l.foldl maxDateStep (some b)).isSome = true := by
  intro l
  induction l with
  | nil => intro b; rfl
  | cons r t ih =>
    intro b
    simp only [List.foldl_cons, maxDateStep]
    by_cases h : chLt b.date.data r.date.data <;> simp [String.toList, h, ih]

theorem argmaxDate_some_of_ne_nil {l : List DRow} (h : l ≠ []) :
    ∃ mr, argmaxDate l = some mr := by
  cases l with
  | nil => exact absurd rfl h
  | cons r t =>
    have hs := foldl_maxDateStep_isSome t r
    have : argmaxDate (r :: t) = t.foldl maxDateStep (some r) := rfl
    rw [this]
    exact Option.isSome_iff_exists.mp hs

theorem donationDetails_ok {paid : List DRow} {dd : String → Option DDetail}
    (h : donationDetails paid = .ok dd) :
    paid.all (fun r => (amtVal r.amount).isSome) = true ∧ dd = ddFun paid := by
  cases hall : paid.all (fun r => (amtVal r.amount).isSome) with
  | true =>
    refine ⟨rfl, ?_⟩
    simp only [donationDetails, hall] at h
    cases h
    rfl
  | false =>
    simp only [donationDetails, hall] at h
    exact absurd h (by simp)

theorem gen_ok_parts {valid : String → Bool} {resp : TagApiResponse}
    {c : List CRow} {emails : List ERow} {dhist : List DRow} {out : List OutRow}
    (h : gen_constituents valid resp c emails dhist = .ok out) :
    ∃ ve dd, filterValidEmails valid emails = .ok ve
      ∧ donationDetails (dhist.filter (fun r => r.status == "Paid")) = .ok dd
      ∧ mapE (assembleRow valid (get_mapped_tags resp) ve dd
          (secondaryEmailTable valid ve c)) c = .ok out
      ∧ c.all (fun r => r.dateEntered.isNone) = false := by
  unfold gen_constituents at h
  split at h
  next e hfe => exact absurd h (by simp)
  next ve hfe =>
    split at h
    next e hdd => exact absurd h (by simp)
    next dd hdd =>
      split at h
      next e hmap => simp at h
      next out0 hmap =>
        split at h
        next hnd => simp at h
        next hnd =>
          cases h
          exact ⟨ve, dd, hfe, hdd, hmap, by simpa using hnd⟩

theorem assembleRow_ok {valid : String → Bool} {mapping ve : List (String × String)}
    {dd : String → Option DDetail} {e2t : String → Option String} {r : CRow}
    {o : OutRow} (h : assembleRow valid mapping ve dd e2t r = .ok o) :
    ∃ created, normalize_dates r.dateEntered = .ok created ∧
      o = { patron_id := r.patronId
            type := constituentType r
            first_name := r.firstName
            last_name := r.lastName
            company := r.company
            created_at := created.map fmtDateTime
            email1 := email1For valid ve r
            email2 := e2t r.patronId
            title := r.salutation
            tags := map_tags r.tags mapping
            background_info := background_info r
            lifetime_donations := (dd r.patronId).map (fun x => fmtCurrency x.lifetime)
            most_recent_donation_amount :=
              (dd r.patronId).map (fun x => fmtCurrency x.mrAmount)
            most_recent_donation_date := (dd r.patronId).map (fun x => x.mrDate) } := by
  simp only [assembleRow] at h
  cases hn : normalize_dates r.dateEntered with
  | error e => rw [hn] at h; exact absurd h (by simp)
  | ok created =>
    rw [hn] at h
    cases h
    exact ⟨created, rfl, rfl⟩

theorem find?_eq_head?_of_all {α : Type} {p : α → Bool} :
    ∀ {l : List α}, (∀ x ∈ l, p x = true) → l.find? p = l.head? := by
  intro l hall
  cases l with
  | nil => rfl
  | cons a t =>
    simp only [List.find?, hall a (List.mem_cons_self a t), List.head?]

theorem mem_rowPairs_fst {valid : String → Bool} {ve : List (String × String)}
    {r : CRow} {x : String × String} (h : x ∈ rowPairs valid ve r) :
    x.1 = r.patronId := by
  have h1 : x ∈ ve.filter (fun p => p.1 == r.patronId) :=
    (List.mem_filter.mp h).1
  have h2 := (List.mem_filter.mp h1).2
  exact eq_of_beq h2

theorem mem_survivingPairs_fst {valid : String → Bool}
    {ve : List (String × String)} {c : List CRow} {x : String × String}
    (h : x ∈ survivingPairs valid ve c) : ∃ r ∈ c, x.1 = r.patronId := by
  simp only [survivingPairs, List.mem_flatMap] at h
  obtain ⟨r, hrc, hx⟩ := h
  exact ⟨r, hrc, mem_rowPairs_fst hx⟩

/-- Under pairwise-distinct patron ids, the per-patron email2 lookup of the
program coincides with the per-row rule: the first validated email of the
patron different from the email1 of that one row. -/
theorem secondaryEmailTable_spec {valid : String → Bool}
    {ve : List (String × String)} :
    ∀ {c : List CRow}, c.Pairwise (fun a b => a.patronId ≠ b.patronId) →
      ∀ (i : Nat) (hi : i < c.length),
        secondaryEmailTable valid ve c (c.get ⟨i, hi⟩).patronId
          = ((rowPairs valid ve (c.get ⟨i, hi⟩)).head?).map (fun p => p.2) := by
  intro c
  induction c with
  | nil => intro _ i hi; exact absurd hi (by simp)
  | cons r rest ih =>
    intro hp i hi
    rw [List.pairwise_cons] at hp
    obtain ⟨hr, hrest⟩ := hp
    have hsplit : survivingPairs valid ve (r :: rest)
        = rowPairs valid ve r ++ survivingPairs valid ve rest := by
      simp [survivingPairs, List.flatMap_cons]
    cases i with
    | zero =>
      have h0 : (r :: rest).get ⟨0, hi⟩ = r := rfl
      rw [h0]
      simp only [secondaryEmailTable, hsplit, List.find?_append]
      have hblock : (rowPairs valid ve r).find? (fun p => p.1 == r.patronId)
          = (rowPairs valid ve r).head? := by
        refine find?_eq_head?_of_all ?_
        intro x hx
        simp [mem_rowPairs_fst hx]
      have hrestnone : (survivingPairs valid ve rest).find?
          (fun p => p.1 == r.patronId) = none := by
        rw [List.find?_eq_none]
        intro x hx
        obtain ⟨b, hbc, hxb⟩ := mem_survivingPairs_fst hx
        simp only [hxb, Bool.not_eq_true]
        exact beq_eq_false_iff_ne.mpr (fun hc => hr b hbc hc.symm)
      rw [hblock, hrestnone, Option.or_none]
    | succ j =>
      have hj := Nat.lt_of_succ_lt_succ hi
      have hmem : rest.get ⟨j, hj⟩ ∈ rest := List.get_mem rest j hj
      have hgoal : (r :: rest).get ⟨j + 1, hi⟩ = rest.get ⟨j, hj⟩ := rfl
      rw [hgoal]
      simp only [secondaryEmailTable, hsplit, List.find?_append]
      have hblocknone : (rowPairs valid ve r).find?
          (fun p => p.1 == (rest.get ⟨j, hj⟩).patronId) = none := by
        rw [List.find?_eq_none]
        intro x hx
        simp only [mem_rowPairs_fst hx, Bool.not_eq_true]
        exact beq_eq_false_iff_ne.mpr (hr _ hmem)
      rw [hblocknone, Option.none_or]
      have hih := ih hrest j hj
      simp only [secondaryEmailTable] at hih
      exact hih

theorem parseAllAmounts_ok :
    ∀ {draw : List DRawRow} {out : List DRow}, parseAllAmounts draw = some out →
      out = draw.map parseWith
      ∧ ∀ r ∈ draw, (parseCurrency r.amount).isSome = true := by
  intro draw
  induction draw with
  | nil =>
    intro out h
    simp only [parseAllAmounts] at h
    cases h
    exact ⟨rfl, by simp⟩
  | cons r rs ih =>
    intro out h
    simp only [parseAllAmounts] at h
    cases hp : parseCurrency r.amount with
    | none => rw [hp] at h; exact absurd h (by simp)
    | some q =>
      rw [hp] at h
      cases hrest : parseAllAmounts rs with
      | none => rw [hrest] at h; exact absurd h (by simp)
      | some rest =>
        rw [hrest] at h
        cases h
        obtain ⟨h1, h2⟩ := ih hrest
        refine ⟨by simp [h1], ?_⟩
        intro x hx
        cases hx with
        | head => simp [hp]
        | tail _ hmem => exact h2 x hmem

/-! ## Claims -/

/-- C1: the spec says a record with a missing name part and company "None"
is classified "Unknown" because the lowercased company value is on the
non-company stoplist.  In the code the stoplist literal concatenates the two
adjacent string literals into the single word "n/anone", so "none" is not on
the list and the classifier returns "Company" for such a record. -/
theorem C1_company_none_misclassified :
    constituentType c1_row = "Company"
    ∧ pyLower "None" = "none"
    ∧ non_company_words.contains "none" = false
    ∧ non_company_words = ["n/anone", "used to work here"] :=
  ⟨by decide, by decide, by decide, rfl⟩

/-- C2: the spec says the date normalizer never raises.  The tuple
unpackings date.split() into (d, t) and t.split(":") into (h, m) in
helper.py normalize_dates are not guarded, so a colon-bearing string with a
seconds component, or one without a space, raises an uncaught ValueError;
only the missing-value path is silent. -/
theorem C2_normalize_dates_raises :
    isErr (normalize_dates (some "2024-01-01 12:30:45")) = true
    ∧ isErr (normalize_dates (some "12:30")) = true
    ∧ normalize_dates none = .ok none :=
  ⟨by decide, by decide, rfl⟩

/-- C3: the spec says normalizing an already-canonical
"YYYY-MM-DD HH:MM:SS" string returns the same string.  Such a string has a
seconds component, so t.split(":") yields three parts and the (h, m)
unpacking raises ValueError; the underlying coercing parser itself would
round-trip the string, confirming that the raise is the only obstacle. -/
theorem C3_canonical_not_idempotent :
    isErr (normalize_dates (some "2024-01-02 03:04:05")) = true
    ∧ (pd_to_datetime_ch "2024-01-02 03:04:05".toList).map fmtDateTime
        = some "2024-01-02 03:04:05" :=
  ⟨by decide, by decide⟩

/-- C4 counterexample: for a constituents file missing the Gender column,
validate_data fails with the fixed message, which does not contain the word
fragment naming the constituents table and is the same message produced when
the emails table is the violating one, so the message cannot identify which
table violated its schema. -/
theorem C4_message_does_not_name_table :
    (validate_data c_cols_missing_gender exp_e_columns exp_d_columns []).2.1
        = "Ensure that columns adhere to the samples"
    ∧ containsSub
        (validate_data c_cols_missing_gender exp_e_columns exp_d_columns
          []).2.1.toList "onstituent".toList = false
    ∧ (validate_data c_cols_missing_gender exp_e_columns exp_d_columns []).2.1
        = (validate_data exp_c_columns ["Patron ID"] exp_d_columns []).2.1
    ∧ (validate_data c_cols_missing_gender exp_e_columns exp_d_columns []).1
        = false :=
  ⟨by decide, by decide, by decide, by decide⟩

/-- C4 (amended): any column-set mismatch of any of the three tables makes
validation fail immediately, before the donation-amount conversion runs
(the table is returned unconverted), with the fixed generic message, and
the request produces an error response instead of output; the message does
not name the violating table. -/
theorem C4_schema_mismatch_fails_fast
    (cCols eCols dCols : List String) (draw : List DRawRow)
    (valid : String → Bool) (resp : TagApiResponse) (c : List CRow)
    (emails : List ERow)
    (hbad : sameColumnSet cCols exp_c_columns = false
          ∨ sameColumnSet eCols exp_e_columns = false
          ∨ sameColumnSet dCols exp_d_columns = false) :
    validate_data cCols eCols dCols draw
        = (false, "Ensure that columns adhere to the samples", draw.map injectRaw)
    ∧ get_outputs valid resp cCols eCols dCols c emails draw
        = .error "Error detected: Ensure that columns adhere to the samples" := by
  have hv : validate_data cCols eCols dCols draw
      = (false, "Ensure that columns adhere to the samples",
         draw.map injectRaw) := by
    unfold validate_data
    rcases hbad with h | h | h
    · simp [h]
    · by_cases h1 : sameColumnSet cCols exp_c_columns <;> simp [h1, h]
    · by_cases h1 : sameColumnSet cCols exp_c_columns <;>
        by_cases h2 : sameColumnSet eCols exp_e_columns <;> simp [h1, h2, h]
  refine ⟨hv, ?_⟩
  simp only [get_outputs, hv]
  rfl

/-- C4 witness: the missing-Gender header triggers the amended behavior. -/
theorem C4_witness :
    sameColumnSet c_cols_missing_gender exp_c_columns = false
    ∧ get_outputs (fun _ => true) ⟨404, []⟩ c_cols_missing_gender
        exp_e_columns exp_d_columns [] [] []
        = .error "Error detected: Ensure that columns adhere to the samples" :=
  ⟨by decide,
   (C4_schema_mismatch_fails_fast c_cols_missing_gender exp_e_columns
     exp_d_columns [] (fun _ => true) ⟨404, []⟩ [] []
     (Or.inl (by decide))).2⟩

/-- C8 counterexample: an empty-string tags cell is not missing for
pd.notnull, so map_tags splits it into one empty piece and rejoins it,
producing an empty-string cell rather than a missing one. -/
theorem C8_empty_string_tag_not_null :
    map_tags (some "") [] = some "" ∧ map_tags (some "") [] ≠ none :=
  ⟨by decide, by decide⟩

/-- C8 (amended): a missing input tags cell yields a missing output tags
cell for every mapping; an empty-string input cell, however, yields an
empty-string output cell (in the deployed pipeline empty CSV fields are
read as missing before map_tags runs, so that case arises only for a
literal empty string handed to map_tags). -/
theorem C8_null_tag_yields_null (mapping : List (String × String)) :
    map_tags none mapping = none := rfl

/-- C9 counterexample: the transform.py variant of the resolver terminates
the process (exit(1)) on a non-success response instead of returning an
empty mapping. -/
theorem C9_transform_resolver_aborts :
    transform_get_mapped_tags ⟨404, []⟩ = .error () := rfl

/-- C9 (amended): for the web-app resolver (helper.py get_mapped_tags),
every non-success response yields the empty mapping, under which every
looked-up tag falls back to itself, so tags pass through unchanged and the
pipeline continues; the standalone transform.py script instead exits the
process on non-success. -/
theorem C9_resolver_empty_on_failure (resp : TagApiResponse)
    (h : resp.status_code ≠ 200) :
    get_mapped_tags resp = []
    ∧ ∀ t : String, (dictGet (get_mapped_tags resp) t).getD t = t := by
  have he : get_mapped_tags resp = [] := by
    simp [get_mapped_tags, h]
  exact ⟨he, fun t => by simp [he, dictGet]⟩

/-- C9 witness: a 404 response produces the empty mapping and identity
lookups. -/
theorem C9_witness :
    (404 : Nat) ≠ 200
    ∧ get_mapped_tags ⟨404, [("a", "b")]⟩ = []
    ∧ (dictGet (get_mapped_tags ⟨404, [("a", "b")]⟩) "Vip").getD "Vip"
        = "Vip" := by
  have h := C9_resolver_empty_on_failure ⟨404, [("a", "b")]⟩ (by decide)
  exact ⟨by decide, h.1, h.2 "Vip"⟩

/-- C5 counterexample: with patron id "1" duplicated in the constituents
table (a soft violation the pipeline tolerates), the per-patron groupby
assigns every row of the patron one shared email2, taken from the merge
pairs of the first row.  Here the second row has the invalid primary "bad@"
and substituted email1 = ok@x.com, yet its email2 is also ok@x.com (the
first row contributed it), not the first validated email different from its
own email1 (ok2@x.com) that the claim prescribes. -/
theorem C5_duplicate_patron_email2 :
    gen_constituents wValid wResp dupC wEmails [] = .ok dupOut
    ∧ wValid "bad@" = false
    ∧ (dupOut.get ⟨1, by decide⟩).email1 = some "ok@x.com"
    ∧ (dupOut.get ⟨1, by decide⟩).email2 = some "ok@x.com"
    ∧ ((((validPairs wValid wEmails).filter (fun p => p.1 == "1")).filter
          (fun p => neqOpt p.2 ((dupOut.get ⟨1, by decide⟩).email1))).head?).map
          (fun p => p.2) = some "ok2@x.com"
    ∧ ¬ ((dupOut.get ⟨1, by decide⟩).email2
        = ((((validPairs wValid wEmails).filter (fun p => p.1 == "1")).filter
            (fun p => neqOpt p.2 ((dupOut.get ⟨1, by decide⟩).email1))).head?).map
            (fun p => p.2)) :=
  ⟨rfl, by decide, by decide, by decide, by decide, by decide⟩

/-- C5 (amended): provided the constituent rows carry pairwise-distinct
patron ids (duplicates are only a logged soft violation, and with them the
per-patron groupby can hand a row an email2 equal to its own email1, see
the counterexample), a constituent whose declared primary email does not
validate (or is missing) gets email1 equal to the first validated email on
file for its patron in input order (empty when none exists), and email2
equal to the first validated email of the patron that differs from the
chosen email1 (empty when none exists). -/
theorem C5_email_selection
    (valid : String → Bool) (resp : TagApiResponse) (c : List CRow)
    (emails : List ERow) (dhist : List DRow) (out : List OutRow)
    (hok : gen_constituents valid resp c emails dhist = .ok out)
    (huniq : c.Pairwise (fun a b => a.patronId ≠ b.patronId))
    (i : Nat) (hi : i < c.length) (hi' : i < out.length)
    (hinv : ∀ e, (c.get ⟨i, hi⟩).primaryEmail = some e → valid e = false) :
    (out.get ⟨i, hi'⟩).email1
        = ((validPairs valid emails).filter
            (fun p => p.1 == (c.get ⟨i, hi⟩).patronId)).head?.map
            (fun p => p.2)
    ∧ (out.get ⟨i, hi'⟩).email2
        = (((validPairs valid emails).filter
            (fun p => p.1 == (c.get ⟨i, hi⟩).patronId)).filter
              (fun p => neqOpt p.2 ((out.get ⟨i, hi'⟩).email1))).head?.map
            (fun p => p.2) := by
  obtain ⟨ve, dd, hfe, hdd, hmap, hnd⟩ := gen_ok_parts hok
  have hrow := mapE_ok_get hmap i hi hi'
  obtain ⟨created, hn, ho⟩ := assembleRow_ok hrow
  have hve := filterValidEmails_ok hfe
  subst hve
  constructor
  · rw [ho]
    simp only [email1For]
    cases hpe : (c.get ⟨i, hi⟩).primaryEmail with
    | none =>
      simp only [replace_invalid_email, lookupFirst, find?_eq_filter_head?]
    | some e =>
      simp only [replace_invalid_email, hinv e hpe, lookupFirst,
        find?_eq_filter_head?, Bool.false_eq_true, if_false]
  · rw [ho]
    show secondaryEmailTable valid (validPairs valid emails) c
        (c.get ⟨i, hi⟩).patronId = _
    rw [secondaryEmailTable_spec huniq i hi]
    rfl

/-- C5 witness: a single-row table (patron ids trivially distinct), primary
"bad@" with validating backups ok@x.com and ok2@x.com in input order,
yields email1 = ok@x.com and email2 = ok2@x.com. -/
theorem C5_witness :
    gen_constituents wValid wResp wC wEmails wDhist = .ok wOut
    ∧ wValid "bad@" = false
    ∧ (wOut.get ⟨0, by decide⟩).email1 = some "ok@x.com"
    ∧ (wOut.get ⟨0, by decide⟩).email2 = some "ok2@x.com" := by
  have h := C5_email_selection wValid wResp wC wEmails wDhist wOut rfl
      (by decide) 0 (by decide) (by decide)
      (by intro e he
          have he' : some "bad@" = some e := he
          cases he'
          decide)
  exact ⟨rfl, by decide, h.1.trans (by decide), h.2.trans (by decide)⟩

/-- C6: in the pipeline output, a constituent owning at least one donation
with status "Paid" carries the currency-formatted sum of all its paid
donation amounts as lifetime_donations (all those amounts being numeric at
that point), while a constituent with no paid donation (only non-paid ones,
or none at all) carries missing values in lifetime_donations and in both
most-recent-donation fields. -/
theorem C6_lifetime_donations
    (valid : String → Bool) (resp : TagApiResponse) (c : List CRow)
    (emails : List ERow) (dhist : List DRow) (out : List OutRow)
    (hok : gen_constituents valid resp c emails dhist = .ok out)
    (i : Nat) (hi : i < c.length) (hi' : i < out.length) :
    (paidRowsFor dhist (c.get ⟨i, hi⟩).patronId ≠ [] →
        (out.get ⟨i, hi'⟩).lifetime_donations
          = some (fmtCurrency
              (qSum ((paidRowsFor dhist (c.get ⟨i, hi⟩).patronId).map
                  (fun r => (amtVal r.amount).getD 0))))
      ∧ ∀ r ∈ paidRowsFor dhist (c.get ⟨i, hi⟩).patronId,
          (amtVal r.amount).isSome = true)
    ∧ (paidRowsFor dhist (c.get ⟨i, hi⟩).patronId = [] →
        (out.get ⟨i, hi'⟩).lifetime_donations = none
      ∧ (out.get ⟨i, hi'⟩).most_recent_donation_amount = none
      ∧ (out.get ⟨i, hi'⟩).most_recent_donation_date = none) := by
  obtain ⟨ve, dd, hfe, hdd, hmap, hnd⟩ := gen_ok_parts hok
  obtain ⟨hall, hddf⟩ := donationDetails_ok hdd
  subst hddf
  have hrow := mapE_ok_get hmap i hi hi'
  obtain ⟨created, hn, ho⟩ := assembleRow_ok hrow
  constructor
  · intro hne
    refine ⟨?_, ?_⟩
    · simp only [paidRowsFor] at hne
      obtain ⟨mr, hmr⟩ := argmaxDate_some_of_ne_nil hne
      rw [ho]
      simp only [paidRowsFor, ddFun]
      rw [hmr]
      rfl
    · intro r hrmem
      simp only [paidRowsFor] at hrmem
      have hmem2 : r ∈ dhist.filter (fun x => x.status == "Paid") :=
        (List.mem_filter.mp hrmem).1
      exact List.all_eq_true.mp hall r hmem2
  · intro hemp
    simp only [paidRowsFor] at hemp
    rw [ho]
    simp only [ddFun]
    rw [hemp]
    simp [argmaxDate]

/-- C6 witness: patron 1 owns paid donations of 10.00 and 7.25 dollars and
one pending donation; the output lifetime_donations is the formatted sum
17.25 dollars. -/
theorem C6_witness :
    gen_constituents wValid wResp wC wEmails wDhist = .ok wOut
    ∧ paidRowsFor wDhist "1" ≠ []
    ∧ (wOut.get ⟨0, by decide⟩).lifetime_donations = some "$17.25" := by
  have h := C6_lifetime_donations wValid wResp wC wEmails wDhist wOut rfl 0
      (by decide) (by decide)
  refine ⟨rfl, by decide, ?_⟩
  exact (h.1 (by decide)).1.trans (by decide)

/-- C7 (amended): whenever the assembler completes without raising, the
output constituents table has exactly as many records as the input
constituents table: the apply steps are per-row and the two left-joins have
unique keys on their right side, so no row is dropped or duplicated.  Some
inputs passing validation still make the assembler raise (see the
counterexample), and then no output at all is produced. -/
theorem C7_output_count
    (valid : String → Bool) (resp : TagApiResponse) (c : List CRow)
    (emails : List ERow) (dhist : List DRow) (out : List OutRow)
    (hok : gen_constituents valid resp c emails dhist = .ok out) :
    out.length = c.length := by
  obtain ⟨ve, dd, hfe, hdd, hmap, hnd⟩ := gen_ok_parts hok
  exact mapE_ok_length hmap

/-- C7 counterexample: an input that passes validation (columns exact,
donation table empty) but whose Date Entered cell "12:30" makes
normalize_dates raise, so gen_constituents aborts and the request produces
an error instead of an output table of equal length. -/
theorem C7_valid_input_no_output :
    (validate_data exp_c_columns exp_e_columns exp_d_columns []).1 = true
    ∧ isErr (gen_constituents (fun _ => true) ⟨404, []⟩ [cx7_row] [] []) = true
    ∧ isErr (get_outputs (fun _ => true) ⟨404, []⟩ exp_c_columns
        exp_e_columns exp_d_columns [cx7_row] [] []) = true :=
  ⟨by decide, by decide, by decide⟩

/-- C7 witness: a completing run preserves the record count. -/
theorem C7_witness :
    gen_constituents wValid wResp wC wEmails wDhist = .ok wOut
    ∧ wOut.length = wC.length :=
  ⟨rfl, C7_output_count wValid wResp wC wEmails wDhist wOut rfl⟩

/-- C10: validate_data mutates the donation table it is given; the model
returns the updated table, which app.py hands to gen_constituents.  On
success every Donation Amount cell of the returned table is the parsed
numeric value of the original currency string, and gen_constituents applied
to a table still holding a raw string amount on some paid row aborts (the
pandas sum or the currency format raises), so it is only correct on a table
already transformed by validate_data. -/
theorem C10_validate_converts_amounts
    (cCols eCols dCols : List String) (draw : List DRawRow) (msg : String)
    (out : List DRow)
    (hok : validate_data cCols eCols dCols draw = (true, msg, out))
    (valid : String → Bool) (resp : TagApiResponse) (c : List CRow)
    (emails : List ERow) (dh2 : List DRow)
    (hraw : ∃ r ∈ dh2, r.status = "Paid" ∧ ∃ s, r.amount = Amt.str s) :
    (out = draw.map parseWith
      ∧ ∀ r ∈ draw, (parseCurrency r.amount).isSome = true)
    ∧ isErr (gen_constituents valid resp c emails dh2) = true := by
  constructor
  · unfold validate_data at hok
    split at hok
    · exact absurd hok (by simp)
    split at hok
    · exact absurd hok (by simp)
    split at hok
    · exact absurd hok (by simp)
    split at hok
    case _ parsed hp =>
      simp only [Prod.mk.injEq] at hok
      obtain ⟨-, -, hout⟩ := hok
      subst hout
      exact parseAllAmounts_ok hp
    case _ hp => exact absurd hok (by simp)
  · obtain ⟨r, hrmem, hrstatus, s, hramt⟩ := hraw
    simp only [gen_constituents]
    cases hfe : filterValidEmails valid emails with
    | error e => rfl
    | ok ve =>
      have hallf : (dh2.filter (fun x => x.status == "Paid")).all
          (fun x => (amtVal x.amount).isSome) = false := by
        rw [List.all_eq_false]
        refine ⟨r, List.mem_filter.mpr ⟨hrmem, by simp [hrstatus]⟩, ?_⟩
        simp [hramt, amtVal]
      simp [donationDetails, hallf, isErr]

/-- C10 witness: validate_data converts the single raw amount to 10.00 and
gen_constituents aborts on the unconverted variant of the same table. -/
theorem C10_witness :
    validate_data exp_c_columns exp_e_columns exp_d_columns wDraw
      = (true, "", wDraw.map parseWith)
    ∧ isErr (gen_constituents wValid wResp wC wEmails wBadDh) = true := by
  have h := C10_validate_converts_amounts exp_c_columns exp_e_columns
      exp_d_columns wDraw "" (wDraw.map parseWith) (by decide) wValid wResp
      wC wEmails wBadDh
      ⟨⟨"1", Amt.str "$10.00", "2024-01-01", "Card", "Camp", "Paid"⟩,
        by decide, rfl, "$10.00", rfl⟩
  exact ⟨by decide, h.2⟩
